import Mathlib

/-!
Verification development for the `oauth-client-deno` AT Protocol OAuth client.

The TypeScript sources are shallowly embedded into Lean: byte strings are
`List Nat` (each entry < 256), JavaScript runtime values that the validators
inspect are a small inductive of runtime-typed values, asynchronous
network-dependent code is embedded as pure functions over an explicit
environment (the responses the network would deliver), and the
single-threaded cooperative scheduling of the JavaScript event loop is
embedded as a fold over an explicit event trace.

Definitions are translated from `src/pkce.ts`, `src/validation.ts`,
`src/dpop.ts`, `src/session.ts`, `src/token-exchange.ts`, `src/errors.ts`
and `src/client.ts`.  A few definitions whose current implementation is
absent from the snapshot (only their tests and callers are present) are
modelled from the specification; each of those carries a doc comment
starting with `Modelled from the spec:`.
-/

namespace OAuthClientDeno

/-! ## Byte-level primitives: base64url (src/pkce.ts `base64UrlEncode`) -/

/-- The standard base64 alphabet used by `btoa`. -/
def base64Chars : List Char :=
  "ABCDEFGHIJKLMNOPQRSTUVWXYZabcdefghijklmnopqrstuvwxyz0123456789+/".data

/-- Character for a 6-bit group, as produced by `btoa`. -/
def b64char (n : Nat) : Char := base64Chars.getD n 'A'

/-- Plain base64 of a byte list, including `=` padding, mirroring `btoa`
over the binary string built in `base64UrlEncode`. -/
def base64EncodeList : List Nat → List Char
  | [] => []
  | [b1] => [b64char (b1 / 4), b64char (b1 % 4 * 16), '=', '=']
  | [b1, b2] => [b64char (b1 / 4), b64char (b1 % 4 * 16 + b2 / 16), b64char (b2 % 16 * 4), '=']
  | b1 :: b2 :: b3 :: rest =>
      b64char (b1 / 4) :: b64char (b1 % 4 * 16 + b2 / 16) ::
      b64char (b2 % 16 * 4 + b3 / 64) :: b64char (b3 % 64) :: base64EncodeList rest

/-- The two character replacements of `base64UrlEncode`:
`+` becomes `-` and `/` becomes `_`. -/
def b64UrlRepl (c : Char) : Char :=
  if c = '+' then '-' else if c = '/' then '_' else c

/-- URL-safe base64 without padding over a byte list: `btoa`, then
replace `+` and `/`, then strip every `=` (src/pkce.ts lines 68-73). -/
def base64UrlEncodeList (data : List Nat) : List Char :=
  ((base64EncodeList data).map b64UrlRepl).filter (fun c => c ≠ '=')

/-- String form of `base64UrlEncode`. -/
def base64UrlEncode (data : List Nat) : String :=
  String.mk (base64UrlEncodeList data)

/-! ## UTF-8 encoding (embedding of `TextEncoder.encode`) -/

/-- UTF-8 bytes of one Unicode code point. -/
def utf8EncodeChar (c : Nat) : List Nat :=
  if c < 128 then [c]
  else if c < 2048 then [192 + c / 64, 128 + c % 64]
  else if c < 65536 then [224 + c / 4096, 128 + c / 64 % 64, 128 + c % 64]
  else [240 + c / 262144, 128 + c / 4096 % 64, 128 + c / 64 % 64, 128 + c % 64]

/-- UTF-8 bytes of a string, the embedding of `new TextEncoder().encode(s)`. -/
def utf8Encode (s : String) : List Nat :=
  s.data.flatMap (fun c => utf8EncodeChar c.toNat)

/-! ## SHA-256 (embedding of `crypto.subtle.digest("SHA-256", data)`)

The Web Crypto digest is the FIPS 180-4 SHA-256 function; it is spelled
out here over `Nat` words reduced mod 2^32. -/

/-- 32-bit word modulus. -/
def w32 : Nat := 4294967296

/-- Right rotation of a 32-bit word. -/
def rotr (n x : Nat) : Nat := (x / 2 ^ n + x % 2 ^ n * 2 ^ (32 - n)) % w32

/-- Logical right shift. -/
def shr (n x : Nat) : Nat := x / 2 ^ n

/-- Bitwise complement of a 32-bit word. -/
def not32 (x : Nat) : Nat := 4294967295 - x

/-- SHA-256 Ch function. -/
def shaCh (e f g : Nat) : Nat := (e &&& f) ^^^ (not32 e &&& g)

/-- SHA-256 Maj function. -/
def shaMaj (a b c : Nat) : Nat := (a &&& b) ^^^ (a &&& c) ^^^ (b &&& c)

/-- SHA-256 big sigma 0. -/
def bigSigma0 (x : Nat) : Nat := rotr 2 x ^^^ rotr 13 x ^^^ rotr 22 x

/-- SHA-256 big sigma 1. -/
def bigSigma1 (x : Nat) : Nat := rotr 6 x ^^^ rotr 11 x ^^^ rotr 25 x

/-- SHA-256 small sigma 0. -/
def smallSigma0 (x : Nat) : Nat := rotr 7 x ^^^ rotr 18 x ^^^ shr 3 x

/-- SHA-256 small sigma 1. -/
def smallSigma1 (x : Nat) : Nat := rotr 17 x ^^^ rotr 19 x ^^^ shr 10 x

/-- SHA-256 round constants (FIPS 180-4 section 4.2.2, written in
decimal). -/
def k256 : List Nat :=
  [1116352408, 1899447441, 3049323471, 3921009573, 961987163,
   1508970993, 2453635748, 2870763221, 3624381080, 310598401,
   607225278, 1426881987, 1925078388, 2162078206, 2614888103,
   3248222580, 3835390401, 4022224774, 264347078, 604807628,
   770255983, 1249150122, 1555081692, 1996064986, 2554220882,
   2821834349, 2952996808, 3210313671, 3336571891, 3584528711,
   113926993, 338241895, 666307205, 773529912, 1294757372,
   1396182291, 1695183700, 1986661051, 2177026350, 2456956037,
   2730485921, 2820302411, 3259730800, 3345764771, 3516065817,
   3600352804, 4094571909, 275423344, 430227734, 506948616,
   659060556, 883997877, 958139571, 1322822218, 1537002063,
   1747873779, 1955562222, 2024104815, 2227730452, 2361852424,
   2428436474, 2756734187, 3204031479, 3329325298]

/-- SHA-256 initial hash value (FIPS 180-4 section 5.3.3, in decimal). -/
def sha256Init : List Nat :=
  [1779033703, 3144134277, 1013904242, 2773480762,
   1359893119, 2600822924, 528734635, 1541459225]

/-- Big-endian bytes of the 64-bit message length. -/
def lenBytes64 (n : Nat) : List Nat :=
  [n / 2 ^ 56 % 256, n / 2 ^ 48 % 256, n / 2 ^ 40 % 256, n / 2 ^ 32 % 256,
   n / 2 ^ 24 % 256, n / 2 ^ 16 % 256, n / 2 ^ 8 % 256, n % 256]

/-- SHA-256 padding: append `0x80`, zero bytes to 56 mod 64, then the
bit length. -/
def shaPad (msg : List Nat) : List Nat :=
  msg ++ 128 :: List.replicate ((119 - msg.length % 64) % 64) 0 ++
    lenBytes64 (msg.length * 8)

/-- Pack bytes into big-endian 32-bit words. -/
def toWords : List Nat → List Nat
  | b0 :: b1 :: b2 :: b3 :: rest =>
      (b0 * 16777216 + b1 * 65536 + b2 * 256 + b3) :: toWords rest
  | _ => []

/-- Element of a word list, defaulting to 0. -/
def wAt (w : List Nat) (i : Nat) : Nat := w.getD i 0

/-- Extend the 16-word message schedule by `k` further words. -/
def extendW : Nat → List Nat → List Nat
  | 0, w => w
  | k + 1, w =>
      extendW k (w ++ [(smallSigma1 (wAt w (w.length - 2)) + wAt w (w.length - 7)
        + smallSigma0 (wAt w (w.length - 15)) + wAt w (w.length - 16)) % w32])

/-- The 64 compression rounds over the zipped constants and schedule. -/
def shaRounds : List (Nat × Nat) → List Nat → List Nat
  | [], hs => hs
  | (k, w) :: rest, [a, b, c, d, e, f, g, h] =>
      let t1 := (h + bigSigma1 e + shaCh e f g + k + w) % w32
      let t2 := (bigSigma0 a + shaMaj a b c) % w32
      shaRounds rest [(t1 + t2) % w32, a, b, c, (d + t1) % w32, e, f, g]
  | _, hs => hs

/-- Pointwise mod-2^32 addition of two word lists. -/
def addWords : List Nat → List Nat → List Nat
  | a :: as, b :: bs => (a + b) % w32 :: addWords as bs
  | _, _ => []

/-- Process `fuel` 64-byte blocks of an already padded message. -/
def shaBlocks : Nat → List Nat → List Nat → List Nat
  | 0, hs, _ => hs
  | fuel + 1, hs, msg =>
      let block := msg.take 64
      let sched := extendW 48 (toWords block)
      shaBlocks fuel (addWords hs (shaRounds (k256.zip sched) hs)) (msg.drop 64)

/-- Big-endian bytes of one 32-bit word. -/
def wordBytes (w : Nat) : List Nat :=
  [w / 16777216 % 256, w / 65536 % 256, w / 256 % 256, w % 256]

/-- SHA-256 digest of a byte list, as 32 bytes. -/
def sha256 (msg : List Nat) : List Nat :=
  let p := shaPad msg
  (shaBlocks (p.length / 64) sha256Init p).flatMap wordBytes

/-! ## PKCE (src/pkce.ts) -/

/-- Embedding of `generateCodeVerifier`: the source draws 32 random bytes
with `crypto.getRandomValues` and returns `base64UrlEncode` of them; the
random bytes are the explicit argument here. -/
def generateCodeVerifier (randomBytes : List Nat) : String :=
  base64UrlEncode randomBytes

/-- Embedding of `generateCodeChallenge`: UTF-8 encode the verifier,
SHA-256 it, and `base64UrlEncode` the digest (src/pkce.ts lines 44-49). -/
def generateCodeChallenge (verifier : String) : String :=
  base64UrlEncode (sha256 (utf8Encode verifier))

/-- A character of the URL-safe base64 alphabet `[A-Za-z0-9_-]`. -/
def isUrlSafeChar (c : Char) : Bool :=
  ('A' ≤ c && c ≤ 'Z') || ('a' ≤ c && c ≤ 'z') || ('0' ≤ c && c ≤ '9') ||
    c = '-' || c = '_'

/-! ## String helpers (embeddings of `startsWith`, `includes`, `toLowerCase`) -/

/-- Whether the second list is an initial segment of the first; embedding of
`String.prototype.startsWith` over the character lists. -/
def listStarts : List Char → List Char → Bool
  | _, [] => true
  | [], _ :: _ => false
  | c :: cs, p :: ps => c == p && listStarts cs ps

/-- Embedding of `s.startsWith(p)`. -/
def strStarts (s p : String) : Bool := listStarts s.data p.data

/-- Whether the pattern occurs inside the list; embedding of
`String.prototype.includes` over the character lists. -/
def listHasSub (p : List Char) : List Char → Bool
  | [] => listStarts [] p
  | c :: cs => listStarts (c :: cs) p || listHasSub p cs

/-- Embedding of `s.includes(p)`. -/
def strHasSub (s p : String) : Bool := listHasSub p.data s.data

/-- ASCII lower-casing of one character.  The sources only lower-case
strings that are compared against the ASCII words `dpop`, `replayed`,
`network`, `timeout`, `connection` and `fetch`, for which
`String.prototype.toLowerCase` agrees with ASCII lowering. -/
def lowerChar (c : Char) : Char :=
  if 'A' ≤ c && c ≤ 'Z' then Char.ofNat (c.toNat + 32) else c

/-- Embedding of `s.toLowerCase()`. -/
def asciiLower (s : String) : String := String.mk (s.data.map lowerChar)

/-! ## JavaScript runtime values

The validators receive `unknown` JSON-decoded values and narrow them with
`typeof` checks.  The value shapes they can observe are embedded here. -/

/-- A JavaScript runtime value as far as the validators inspect one. -/
inductive JsVal where
  | str (s : String)
  | num (n : Int)
  | boolVal (b : Bool)
  | nullVal
  | arr (elems : List JsVal)

/-- Extract a string field: `some s` exactly when `typeof v === "string"`;
an absent field (undefined) or any non-string value gives `none`. -/
def getStr : Option JsVal → Option String
  | some (.str s) => some s
  | _ => none

/-- Extract a number field: `some n` exactly when `typeof v === "number"`. -/
def getNum : Option JsVal → Option Int
  | some (.num n) => some n
  | _ => none

/-- JavaScript truthiness of a field value; an absent field is falsy. -/
def jsTruthy : Option JsVal → Bool
  | none => false
  | some (.str s) => s ≠ ""
  | some (.num n) => n ≠ 0
  | some (.boolVal b) => b
  | some .nullVal => false
  | some (.arr _) => true

/-! ## URL parsing (model of `new URL`)

The validators use `new URL(u).protocol` and `new URL(u).origin` and the
DPoP engine keys its nonce cache by `new URL(u).origin`.  The URLs the
client handles are all of the shape `scheme://authority/path...`; the model
parses exactly those and fails on inputs with no `://`. -/

/-- Split a character list at the first `://`, returning the scheme and
the remainder, or `none` when no `://` occurs. -/
def splitScheme : List Char → Option (List Char × List Char)
  | ':' :: '/' :: '/' :: rest => some ([], rest)
  | c :: t => (splitScheme t).map (fun p => (c :: p.1, p.2))
  | [] => none

/-- The authority part: everything up to the first `/`, `?` or `#`. -/
def authorityOf : List Char → List Char
  | [] => []
  | c :: t => if c = '/' || c = '?' || c = '#' then [] else c :: authorityOf t

/-- Parsed URL observables used by the sources. -/
structure ParsedUrl where
  protocol : String
  origin : String
deriving DecidableEq, Repr

/-- Model of `new URL(url)`: `none` models the thrown `TypeError`. -/
def parseUrl (url : String) : Option ParsedUrl :=
  match splitScheme url.data with
  | some (scheme, rest) =>
      if scheme = [] then none
      else some ⟨String.mk (scheme ++ [':']),
        String.mk (scheme ++ ':' :: '/' :: '/' :: authorityOf rest)⟩
  | none => none

/-- Origin of a URL (`scheme://authority`); for the inputs the engine
feeds it these are always parseable, and the function returns the input
unchanged on non-URLs. -/
def originOf (url : String) : String :=
  match parseUrl url with
  | some p => p.origin
  | none => url

/-! ## Validators (src/validation.ts) -/

/-- A validation failure.  `metadataErr` is a `MetadataValidationError` or
`TokenValidationError` carrying its message; `typeErr` models a raw
`TypeError` escaping from an uncaught `new URL` call. -/
inductive ValErr where
  | metadataErr (message : String)
  | typeErr
deriving DecidableEq, Repr

/-- Validated token response (src/validation.ts `ValidatedTokenResponse`). -/
structure ValidatedTokenResponse where
  access_token : String
  token_type : String
  scope : String
  sub : String
  expires_in : Int
  refresh_token : Option String
deriving DecidableEq, Repr

/-- The fields of a raw token response object that the validator reads;
`none` is an absent (undefined) field. -/
structure RawTokenFields where
  access_token : Option JsVal
  token_type : Option JsVal
  scope : Option JsVal
  sub : Option JsVal
  expires_in : Option JsVal
  refresh_token : Option JsVal

/-- A raw token response: either not an object (including null), or an
object with the six inspected fields. -/
inductive RawTokenInput where
  | notObject
  | obj (fields : RawTokenFields)

/-- Embedding of `validateTokenResponse` (src/validation.ts lines 164-222).
The checks run in source order: object shape, `access_token`,
`token_type`, `sub`, `scope`, `expires_in`, `refresh_token`.  Error
messages keep the substrings the tests and the spec look for. -/
def validateTokenResponse : RawTokenInput → Except ValErr ValidatedTokenResponse
  | .notObject => .error (.metadataErr "token response is not an object")
  | .obj r =>
    match getStr r.access_token with
    | none => .error (.metadataErr "missing or empty access_token")
    | some a =>
      if a = "" then .error (.metadataErr "missing or empty access_token") else
      match getStr r.token_type with
      | none => .error (.metadataErr "missing token_type")
      | some t =>
        if asciiLower t ≠ "dpop" then
          .error (.metadataErr ("unexpected token_type " ++ t ++ ", expected DPoP")) else
        match getStr r.sub with
        | none => .error (.metadataErr "missing sub claim")
        | some sb =>
          if sb = "" then .error (.metadataErr "missing sub claim") else
          if !strStarts sb "did:" then
            .error (.metadataErr ("invalid sub claim " ++ sb ++ ", must start with did:")) else
          match getStr r.scope with
          | none => .error (.metadataErr "missing scope")
          | some sc =>
            if sc = "" then .error (.metadataErr "missing scope") else
            if !strHasSub sc "atproto" then
              .error (.metadataErr ("scope " ++ sc ++ " does not include required atproto scope")) else
            match getNum r.expires_in with
            | none => .error (.metadataErr "invalid expires_in value")
            | some n =>
              if n ≤ 0 then .error (.metadataErr "invalid expires_in value") else
              match r.refresh_token with
              | none => .ok ⟨a, t, sc, sb, n, none⟩
              | some (.str rt) => .ok ⟨a, t, sc, sb, n, some rt⟩
              | some _ => .error (.metadataErr "refresh_token must be a string if present")

/-- The well-formedness condition on a raw token response exactly as the
spec sentence states it: `access_token` a non-empty string, `token_type`
case-insensitively `DPoP`, `sub` a non-empty string starting with `did:`,
`scope` a non-empty string containing `atproto`, `expires_in` a positive
number, and `refresh_token` a string when present. -/
def tokenResponseWellFormed : RawTokenInput → Bool
  | .notObject => false
  | .obj r =>
    (match getStr r.access_token with | some a => a != "" | none => false) &&
    (match getStr r.token_type with | some t => asciiLower t == "dpop" | none => false) &&
    (match getStr r.sub with | some sb => sb != "" && strStarts sb "did:" | none => false) &&
    (match getStr r.scope with | some sc => sc != "" && strHasSub sc "atproto" | none => false) &&
    (match getNum r.expires_in with | some n => decide (0 < n) | none => false) &&
    (match r.refresh_token with
     | none => true
     | some (.str _) => true
     | some _ => false)

/-- Whether an `Except` is a success. -/
def exceptIsOk : Except ε α → Bool
  | .ok _ => true
  | .error _ => false

/-- Validated auth-server metadata (src/validation.ts). -/
structure ValidatedAuthServerMetadata where
  issuer : String
  authorization_endpoint : String
  token_endpoint : String
  pushed_authorization_request_endpoint : Option String
  revocation_endpoint : Option String
  dpop_signing_alg_values_supported : Option (List JsVal)

/-- Fields of a raw auth-server metadata object that the validator reads. -/
structure RawMetaFields where
  issuer : Option JsVal
  authorization_endpoint : Option JsVal
  token_endpoint : Option JsVal
  pushed_authorization_request_endpoint : Option JsVal
  revocation_endpoint : Option JsVal
  dpop_signing_alg_values_supported : Option JsVal

/-- A raw metadata document: not an object, or an object with fields. -/
inductive RawMetaInput where
  | notObject
  | obj (fields : RawMetaFields)

/-- Embedding of `requireHttpsUrl` (src/validation.ts lines 39-51). -/
def requireHttpsUrl (url : String) (label : String) : Except ValErr Unit :=
  match parseUrl url with
  | some p =>
      if p.protocol ≠ "https:" then
        .error (.metadataErr (label ++ " must use HTTPS, got " ++ p.protocol))
      else .ok ()
  | none => .error (.metadataErr (label ++ " is not a valid URL: " ++ url))

/-- Whether a JsVal list contains a given string (embedding of
`Array.prototype.includes` against a string literal). -/
def jsArrHasStr (xs : List JsVal) (s : String) : Bool :=
  xs.any (fun v => match v with | .str t => t == s | _ => false)

/-- Validation of an optional endpoint field (src/validation.ts lines
103-120): skipped entirely when the field is falsy, otherwise it must be
a string and HTTPS. -/
def checkOptionalHttps (field : Option JsVal) (label : String) : Except ValErr Unit :=
  if jsTruthy field then
    match getStr field with
    | none => .error (.metadataErr ("invalid " ++ label))
    | some u => requireHttpsUrl u label
  else .ok ()

/-- Validation of `dpop_signing_alg_values_supported` (src/validation.ts
lines 123-134): when present it must be an array containing `ES256`. -/
def checkDpopAlgs (field : Option JsVal) : Except ValErr Unit :=
  match field with
  | none => .ok ()
  | some (.arr xs) =>
      if !jsArrHasStr xs "ES256" then
        .error (.metadataErr "server does not support ES256 for DPoP")
      else .ok ()
  | some _ => .error (.metadataErr "dpop_signing_alg_values_supported must be an array")

/-- Embedding of `validateAuthServerMetadata` (src/validation.ts lines
67-147): object shape, `issuer` non-empty string whose origin equals the
origin of the fetch URL, required HTTPS `authorization_endpoint` and
`token_endpoint`, optional HTTPS PAR and revocation endpoints (skipped
when falsy, per the source truthiness test), and
`dpop_signing_alg_values_supported` containing `ES256` when present.  An
unparseable issuer or fetch URL escapes as a raw `TypeError` (`typeErr`),
exactly as the uncaught `new URL` call in the source would. -/
def validateAuthServerMetadata (meta : RawMetaInput) (expectedIssuer : String) :
    Except ValErr ValidatedAuthServerMetadata :=
  match meta with
  | .notObject => .error (.metadataErr "metadata is not an object")
  | .obj md =>
    match getStr md.issuer with
    | none => .error (.metadataErr "missing or invalid issuer field")
    | some iss =>
      if iss = "" then .error (.metadataErr "missing or invalid issuer field") else
      match parseUrl iss, parseUrl expectedIssuer with
      | some pi, some pe =>
        if pi.origin ≠ pe.origin then
          .error (.metadataErr ("issuer origin " ++ pi.origin ++
            " does not match expected " ++ pe.origin)) else
        (match getStr md.authorization_endpoint with
        | none => .error (.metadataErr "missing authorization_endpoint")
        | some ae =>
          if ae = "" then .error (.metadataErr "missing authorization_endpoint") else
          match requireHttpsUrl ae "authorization_endpoint" with
          | .error e => .error e
          | .ok _ =>
            match getStr md.token_endpoint with
            | none => .error (.metadataErr "missing token_endpoint")
            | some te =>
              if te = "" then .error (.metadataErr "missing token_endpoint") else
              match requireHttpsUrl te "token_endpoint" with
              | .error e => .error e
              | .ok _ =>
                match checkOptionalHttps md.pushed_authorization_request_endpoint
                    "pushed_authorization_request_endpoint" with
                | .error e => .error e
                | .ok _ =>
                  match checkOptionalHttps md.revocation_endpoint "revocation_endpoint" with
                  | .error e => .error e
                  | .ok _ =>
                    match checkDpopAlgs md.dpop_signing_alg_values_supported with
                    | .error e => .error e
                    | .ok _ => .ok
                        { issuer := iss
                          authorization_endpoint := ae
                          token_endpoint := te
                          pushed_authorization_request_endpoint :=
                            getStr md.pushed_authorization_request_endpoint
                          revocation_endpoint := getStr md.revocation_endpoint
                          dpop_signing_alg_values_supported :=
                            match md.dpop_signing_alg_values_supported with
                            | some (.arr xs) => some xs
                            | _ => none })
      | _, _ => .error .typeErr

/-! ## Auth-server discovery (src/resolvers.ts) -/

/-- Endpoints returned by auth-server discovery, including the validated
issuer that the client stores in the PKCE record and re-checks at
callback time. -/
structure DiscoveredEndpoints where
  authorizationEndpoint : String
  tokenEndpoint : String
  revocationEndpoint : Option String
  issuer : String
deriving DecidableEq, Repr

/-- A discovery failure: the metadata fetch returned non-OK, or the
fetched document failed validation. -/
inductive DiscoveryErr where
  | fetchFailed
  | invalidMetadata (e : ValErr)
deriving DecidableEq, Repr

/-- Modelled from the spec: the current `discoverOAuthEndpointsFromAuthServer`
(the version returning the `issuer` field, which `src/client.ts` consumes)
is absent from the snapshot; the snapshot carries an earlier revision
without validation or issuer.  Per the spec it fetches
`<auth>/.well-known/oauth-authorization-server`, validates the document
with `validateAuthServerMetadata` against the server URL, and returns the
endpoints plus the validated issuer.  The fetch result is the explicit
`fetched` argument (`none` models a non-OK response). -/
def discoverOAuthEndpointsFromAuthServer (authServerUrl : String)
    (fetched : Option RawMetaInput) : Except DiscoveryErr DiscoveredEndpoints :=
  match fetched with
  | none => .error .fetchFailed
  | some raw =>
    match validateAuthServerMetadata raw authServerUrl with
    | .error e => .error (.invalidMetadata e)
    | .ok v => .ok ⟨v.authorization_endpoint, v.token_endpoint,
        v.revocation_endpoint, v.issuer⟩

/-! ## DPoP engine (src/dpop.ts) -/

/-- An HTTP response as the DPoP engine observes one: the status code and
the optional `DPoP-Nonce` header. -/
structure HttpResponse where
  status : Nat
  dpopNonce : Option String
deriving DecidableEq, Repr

/-- Access-token hash for the `ath` claim: URL-safe base64 without padding
of SHA-256 of the token (src/dpop.ts lines 66-74). -/
def athOf (accessToken : String) : String :=
  base64UrlEncode (sha256 (utf8Encode accessToken))

/-- The payload of a DPoP proof JWT as built by `generateDPoPProof`
(src/dpop.ts lines 56-78).  `jti` is a fresh random UUID and is omitted
here; `iat` and `exp` are kept. -/
structure DPoPPayload where
  htm : String
  htu : String
  iat : Nat
  exp : Nat
  ath : Option String
  nonce : Option String
deriving DecidableEq, Repr

/-- Embedding of the payload construction of `generateDPoPProof`
(src/dpop.ts lines 56-78): `htm` and `htu` are the method and url
arguments verbatim, `ath` is added only for a truthy access token, and
`nonce` only for a truthy nonce. -/
def generateDPoPProofPayload (method url : String) (accessToken : Option String)
    (nonce : Option String) (nowSec : Nat) : DPoPPayload :=
  { htm := method
    htu := url
    iat := nowSec
    exp := nowSec + 5 * 60
    ath := match accessToken with
           | some t => if t = "" then none else some (athOf t)
           | none => none
    nonce := match nonce with
           | some n => if n = "" then none else some n
           | none => none }

/-- Trace of `makeDPoPRequest` (src/dpop.ts lines 120-188): the proof
payloads attached to the requests actually sent, in order, and the final
response.  `serve i` is the response the network returns to the i-th
request. -/
structure DPoPRequestTrace where
  proofs : List DPoPPayload
  response : HttpResponse
deriving DecidableEq, Repr

/-- Embedding of `makeDPoPRequest`: send with a proof carrying `ath`;
if the response is 401 and carries a `DPoP-Nonce` header, build one new
proof including the nonce and retry exactly once; all other statuses are
returned as-is. -/
def makeDPoPRequest (serve : Nat → HttpResponse) (method url accessToken : String)
    (nowSec : Nat) : DPoPRequestTrace :=
  let p0 := generateDPoPProofPayload method url (some accessToken) none nowSec
  let r0 := serve 0
  if r0.status = 401 then
    match r0.dpopNonce with
    | some n =>
        if n = "" then ⟨[p0], r0⟩
        else
          let p1 := generateDPoPProofPayload method url (some accessToken) (some n) nowSec
          ⟨[p0, p1], serve 1⟩
    | none => ⟨[p0], r0⟩
  else ⟨[p0], r0⟩

/-! ## Per-origin nonce cache

The tests (tests/dpop_test.ts) exercise `getCachedNonce` and
`updateNonceCache` from `src/dpop.ts`, but the snapshot's `src/dpop.ts`
predates them; only the tests and the spec describe them. -/

/-- Update one binding of an association list keyed by origin. -/
def setNonce : List (String × String) → String → String → List (String × String)
  | [], o, n => [(o, n)]
  | (k, v) :: rest, o, n =>
      if k = o then (o, n) :: rest else (k, v) :: setNonce rest o n

/-- Modelled from the spec: `updateNonceCache(url, response)` updates the
process-wide cache entry for the origin of `url` unconditionally whenever
the response carries a `DPoP-Nonce` header, and leaves the cache
unchanged otherwise. -/
def updateNonceCache (cache : List (String × String)) (url : String)
    (resp : HttpResponse) : List (String × String) :=
  match resp.dpopNonce with
  | some n => setNonce cache (originOf url) n
  | none => cache

/-- Modelled from the spec: `getCachedNonce(url)` returns the cached nonce
for the origin of `url`, if any. -/
def getCachedNonce (cache : List (String × String)) (url : String) : Option String :=
  (cache.find? (fun kv => kv.1 = originOf url)).map Prod.snd

/-- Modelled from the spec: proof generation consults the cache for the
target origin, so the cached nonce is included even on the first attempt
against that origin. -/
def generateProofWithCachedNonce (cache : List (String × String))
    (method url : String) (accessToken : Option String) (nowSec : Nat) : DPoPPayload :=
  generateDPoPProofPayload method url accessToken (getCachedNonce cache url) nowSec

/-! ## Session (src/session.ts) -/

/-- The serialized session record (src/types.ts `SessionData`).  The two
JWKs are carried as abstract blobs. -/
structure SessionData where
  did : String
  handle : String
  pdsUrl : String
  accessToken : String
  refreshToken : String
  dpopPrivateKeyJWK : String
  dpopPublicKeyJWK : String
  tokenExpiresAt : Nat
deriving DecidableEq, Repr

/-- Embedding of `Session.isExpired` (src/session.ts lines 89-92):
expired when now plus the five-minute buffer reaches `tokenExpiresAt`. -/
def isExpired (s : SessionData) (nowMs : Nat) : Bool :=
  decide (nowMs + 5 * 60 * 1000 ≥ s.tokenExpiresAt)

/-- New token data passed to `updateTokens` (src/session.ts lines 188-192). -/
structure RefreshedTokens where
  accessToken : String
  refreshToken : Option String
  expiresIn : Nat
deriving DecidableEq, Repr

/-- Embedding of `Session.updateTokens` (src/session.ts lines 188-198):
always overwrite `accessToken`, overwrite `refreshToken` only when the
supplied value is truthy (a non-empty string), recompute
`tokenExpiresAt`; every other field is untouched. -/
def updateTokens (s : SessionData) (t : RefreshedTokens) (nowMs : Nat) : SessionData :=
  { s with
    accessToken := t.accessToken
    refreshToken :=
      match t.refreshToken with
      | some r => if r = "" then s.refreshToken else r
      | none => s.refreshToken
    tokenExpiresAt := nowMs + t.expiresIn * 1000 }

/-- Result of the modelled `Session.makeRequest`: the proof payloads of
the requests sent in order, the JWK handed to `importPrivateKeyFromJWK`,
whether the attached refresh callback ran, and the final response. -/
structure MakeRequestResult where
  proofs : List DPoPPayload
  importedKeyJWK : String
  refreshInvoked : Bool
  response : HttpResponse
deriving DecidableEq, Repr

/-- Modelled from the spec: `Session.makeRequest`.  The snapshot's
`src/session.ts` predates the 401 auto-refresh (the v5 client in
`src/client.ts` attaches the refresh callback it relies on).  Per the
spec: import the private key from the stored JWK, issue the request
through `makeDPoPRequest` (which retries once on 401 with a returned
`DPoP-Nonce`); if the response is still 401 and a refresh callback is
attached, invoke it (refresh plus storage update, yielding a new access
token) and retry a final time.  `refreshedToken` is `some t` when a
callback is attached and refreshing produces access token `t`; `serve i`
is the network response to the i-th request sent. -/
def sessionMakeRequest (serve : Nat → HttpResponse) (s : SessionData)
    (refreshedToken : Option String) (method url : String) (nowSec : Nat) :
    MakeRequestResult :=
  let base := makeDPoPRequest serve method url s.accessToken nowSec
  if base.response.status = 401 then
    match refreshedToken with
    | some t =>
        let pf := generateDPoPProofPayload method url (some t) none nowSec
        ⟨base.proofs ++ [pf], s.dpopPrivateKeyJWK, true, serve base.proofs.length⟩
    | none => ⟨base.proofs, s.dpopPrivateKeyJWK, false, base.response⟩
  else ⟨base.proofs, s.dpopPrivateKeyJWK, false, base.response⟩

/-! ## Errors and refresh recovery (src/errors.ts, src/client.ts) -/

/-- The data of a `TokenExchangeError`: the full message (including the
`Token exchange failed: ` prefix added by the constructor), the optional
OAuth `errorCode` and the optional `errorDescription`. -/
structure TokenExchangeErrData where
  message : String
  errorCode : Option String
  errorDescription : Option String
deriving DecidableEq, Repr

/-- A failure escaping from the refresh attempt inside `performRefresh`:
a `TokenExchangeError`, a `NetworkError`, or any other error, carrying
its message. -/
inductive RefreshFailure where
  | tokenExchange (e : TokenExchangeErrData)
  | network (message : String)
  | other (message : String)
deriving DecidableEq, Repr

/-- Embedding of `OAuthClient.isTokenReplayedError` (src/client.ts lines
915-924): a `TokenExchangeError` with `errorCode` `invalid_grant` whose
message or `errorDescription` contains `replayed` (lower-cased). -/
def isTokenReplayedError : RefreshFailure → Bool
  | .tokenExchange e =>
      e.errorCode == some "invalid_grant" &&
        (strHasSub (asciiLower e.message) "replayed" ||
         strHasSub (asciiLower (e.errorDescription.getD "")) "replayed")
  | _ => false

/-- Embedding of `OAuthClient.isNetworkError` (src/client.ts lines
926-934): a `NetworkError`, or any error whose message mentions
`network`, `timeout`, `connection` or `fetch`. -/
def isNetworkError : RefreshFailure → Bool
  | .network _ => true
  | .tokenExchange e =>
      let m := asciiLower e.message
      strHasSub m "network" || strHasSub m "timeout" ||
        strHasSub m "connection" || strHasSub m "fetch"
  | .other msg =>
      let m := asciiLower msg
      strHasSub m "network" || strHasSub m "timeout" ||
        strHasSub m "connection" || strHasSub m "fetch"

/-- The error ultimately raised by `performRefresh` after classification. -/
inductive RefreshErrOut where
  | refreshTokenExpired
  | tokenExchange (e : TokenExchangeErrData)
  | networkErr
  | wrapped
deriving DecidableEq, Repr

/-- Outcome of the catch block of `performRefresh`: the value returned or
error raised, how long the path slept, and whether best-effort revocation
was fired. -/
structure RefreshCatchResult where
  result : Except RefreshErrOut SessionData
  sleptMs : Option Nat
  revocationAttempted : Bool
deriving Repr

/-- Embedding of the catch block of `OAuthClient.performRefresh`
(src/client.ts lines 743-784): on a replay error, sleep 200 ms, reload
`session:<did>` from storage and return it when present and no longer
expired; otherwise fire best-effort revocation unless the error is a
replay or network error, then classify: `invalid_grant` becomes
`RefreshTokenExpired`, other `TokenExchangeError`s pass through, network
errors become `NetworkError`, anything else is wrapped.  `stored` is the
record storage holds under `session:<did>` at the reload. -/
def performRefreshCatch (e : RefreshFailure) (stored : Option SessionData)
    (nowMs : Nat) : RefreshCatchResult :=
  let replayed := isTokenReplayedError e
  let recovered : Option SessionData :=
    if replayed then
      match stored with
      | some d => if isExpired d nowMs then none else some d
      | none => none
    else none
  match recovered with
  | some d => ⟨.ok d, some 200, false⟩
  | none =>
    let revoke := !replayed && !isNetworkError e
    let errOut : RefreshErrOut :=
      match e with
      | .tokenExchange te =>
          if te.errorCode == some "invalid_grant" then .refreshTokenExpired
          else .tokenExchange te
      | .network _ => .networkErr
      | .other _ => if isNetworkError e then .networkErr else .wrapped
    ⟨.error errOut, if replayed then some 200 else none, revoke⟩

/-! ## Callback issuer verification (src/client.ts) -/

/-- The PKCE record stored under `pkce:<state>` at authorize time
(src/client.ts lines 307-314). -/
structure PkceData where
  codeVerifier : String
  authServer : String
  issuer : String
  handle : String
  did : String
  pdsUrl : String
deriving DecidableEq, Repr

/-- Result of `resolveDidDocument` (src/resolvers.ts): the PDS URL and
handle from the DID document. -/
structure ResolvedDid where
  pdsUrl : String
  handle : String
deriving DecidableEq, Repr

/-- The network-dependent collaborators of `callback`:
`resolveDid` embeds `resolveDidDocument` (`none` models a thrown
`PDSDiscoveryError`), and `discover` embeds
`discoverOAuthEndpointsFromPDS` (`none` models any thrown discovery
error). -/
structure CallbackEnv where
  resolveDid : String → Option ResolvedDid
  discover : String → Option DiscoveredEndpoints

/-- Embedding of `OAuthClient.verifyIssuer` (src/client.ts lines 860-894):
determine the PDS of the DID (using `knownPdsUrl` when truthy, else
resolving the DID document), discover the auth server from that PDS and
compare its issuer to the issuer stored at authorize time.  A mismatch
yields `some (expected, actual)`; every failure of resolution or
discovery is caught and yields `none` (verification does not block). -/
def verifyIssuer (env : CallbackEnv) (did _authServer issuer : String)
    (knownPdsUrl : Option String) : Option (String × String) :=
  let pds : Option String :=
    match knownPdsUrl with
    | some p => if p = "" then (env.resolveDid did).map ResolvedDid.pdsUrl else some p
    | none => (env.resolveDid did).map ResolvedDid.pdsUrl
  match pds with
  | none => none
  | some p =>
    match env.discover p with
    | none => none
    | some eps => if eps.issuer ≠ issuer then some (eps.issuer, issuer) else none

/-- A failure of the callback tail after token validation. -/
inductive CallbackErr where
  | issuerMismatch (expected actual : String) (handle did : Option String)
  | resolveFailed (did : String)
deriving DecidableEq, Repr

/-- Embedding of the identity-resolution step of `callback` (src/client.ts
lines 442-453): when the PKCE record has no DID (auth-server URL flow),
the token `sub` is authoritative and the handle and PDS come from the DID
document; otherwise the PKCE record supplies all three. -/
def callbackResolveIdentity (env : CallbackEnv) (pkce : PkceData)
    (tokenDid : String) : Option (String × String × String) :=
  if pkce.did = "" then
    (env.resolveDid tokenDid).map (fun r => (tokenDid, r.handle, r.pdsUrl))
  else some (pkce.did, pkce.handle, pkce.pdsUrl)

/-- Embedding of the session construction of `callback` (src/client.ts
lines 470-479): `refreshToken` falls back to the empty string when the
validated response has no `refresh_token`. -/
def callbackSessionData (did handle pdsUrl : String) (tok : ValidatedTokenResponse)
    (privJWK pubJWK : String) (nowMs : Nat) : SessionData :=
  { did := did
    handle := handle
    pdsUrl := pdsUrl
    accessToken := tok.access_token
    refreshToken := tok.refresh_token.getD ""
    dpopPrivateKeyJWK := privJWK
    dpopPublicKeyJWK := pubJWK
    tokenExpiresAt := nowMs + tok.expires_in.toNat * 1000 }

/-- Embedding of the tail of `callback` after token validation
(src/client.ts lines 441-494): resolve the identity, run `verifyIssuer`
with the known PDS; on mismatch raise `IssuerMismatchError` with the
resolved handle and DID attached; otherwise construct and return the
session. -/
def callbackVerifyAndCreate (env : CallbackEnv) (pkce : PkceData)
    (tok : ValidatedTokenResponse) (privJWK pubJWK : String) (nowMs : Nat) :
    Except CallbackErr SessionData :=
  match callbackResolveIdentity env pkce tok.sub with
  | none => .error (.resolveFailed tok.sub)
  | some (did, handle, pdsUrl) =>
    match verifyIssuer env tok.sub pkce.authServer pkce.issuer (some pdsUrl) with
    | some (expected, actual) =>
        .error (.issuerMismatch expected actual (some handle) (some did))
    | none => .ok (callbackSessionData did handle pdsUrl tok privJWK pubJWK nowMs)

/-! ## Concurrency-safe restore (src/client.ts lines 542-635)

JavaScript is single-threaded: `restore` synchronously consults
`restoreLocks` and synchronously installs the new in-flight promise
before returning, so the interleaving of concurrent callers is a sequence
of atomic `call` events, and completion of the underlying operation
(which deletes the lock in its `finally`) is a `complete` event.  Each
underlying restore of an expired session invokes `this.refresh` exactly
once (line 575), which performs one token-endpoint refresh request. -/

/-- One scheduler event: a caller invokes `restore(sessionId)`, or the
in-flight underlying restore settles (running its `finally`). -/
inductive RestoreEvent where
  | call
  | complete
deriving DecidableEq, Repr

/-- State of the per-session lock machinery for one `sessionId`:
the in-flight promise (by id), the next fresh promise id, the number of
underlying restore operations started, and the promise each caller was
handed, in call order. -/
structure RestoreLockState where
  lock : Option Nat
  nextId : Nat
  startedRestores : Nat
  assigned : List Nat
deriving DecidableEq, Repr

/-- The initial lock state: no in-flight operation. -/
def restoreInit : RestoreLockState := ⟨none, 0, 0, []⟩

/-- One step of the lock discipline of `restore`: a caller either joins
the in-flight promise (lines 544-549) or starts a new underlying
operation and installs it (lines 552-632); completion deletes the lock
(line 627). -/
def restoreStep (s : RestoreLockState) : RestoreEvent → RestoreLockState
  | .call =>
    match s.lock with
    | some p => { s with assigned := s.assigned ++ [p] }
    | none =>
        { lock := some s.nextId
          nextId := s.nextId + 1
          startedRestores := s.startedRestores + 1
          assigned := s.assigned ++ [s.nextId] }
  | .complete => { s with lock := none }

/-- Run the lock machinery over an event trace. -/
def restoreRun (events : List RestoreEvent) : RestoreLockState :=
  events.foldl restoreStep restoreInit

/-- The token response of spec scenario 5: a valid response except that
`sub` is `user:abc` rather than a DID. -/
def c5BadSub : RawTokenInput :=
  .obj ⟨some (.str "x"), some (.str "DPoP"), some (.str "atproto transition:generic"),
    some (.str "user:abc"), some (.num 3600), none⟩

/-- A valid auth-server metadata document for `https://bsky.social`, as in
the repository validation tests. -/
def c2ValidMeta : RawMetaInput :=
  .obj ⟨some (.str "https://bsky.social"),
    some (.str "https://bsky.social/oauth/authorize"),
    some (.str "https://bsky.social/oauth/token"),
    some (.str "https://bsky.social/oauth/par"),
    some (.str "https://bsky.social/oauth/revoke"),
    some (.arr [.str "ES256"])⟩

/-! # Theorems -/

/-- The base64 alphabet has 64 characters. -/
theorem b64chars_len : base64Chars.length = 64 := by decide

/-- Every character `btoa` can emit, after the URL-safe replacements, lies
in the URL-safe alphabet and is not the padding character. -/
theorem b64UrlRepl_b64char_safe (n : Nat) :
    isUrlSafeChar (b64UrlRepl (b64char n)) = true ∧ b64UrlRepl (b64char n) ≠ '=' := by
  by_cases h : n < 64
  · have H : ∀ m, m < 64 →
        isUrlSafeChar (b64UrlRepl (b64char m)) = true ∧ b64UrlRepl (b64char m) ≠ '=' := by
      decide
    exact H n h
  · have hA : b64char n = 'A' := by
      unfold b64char
      rw [List.getD_eq_default]
      rw [b64chars_len]; omega
    rw [hA]; exact ⟨by decide, by decide⟩

/-- The padding character is untouched by the URL-safe replacements. -/
theorem b64UrlRepl_eq : b64UrlRepl '=' = '=' := by decide

/-- Encoding of a single trailing byte, after stripping padding. -/
theorem b64url_one (b1 : Nat) :
    base64UrlEncodeList [b1] =
      [b64UrlRepl (b64char (b1 / 4)), b64UrlRepl (b64char (b1 % 4 * 16))] := by
  simp [base64UrlEncodeList, base64EncodeList, List.filter_cons, b64UrlRepl_eq,
    (b64UrlRepl_b64char_safe _).2]

/-- Encoding of two trailing bytes, after stripping padding. -/
theorem b64url_two (b1 b2 : Nat) :
    base64UrlEncodeList [b1, b2] = [b64UrlRepl (b64char (b1 / 4)),
      b64UrlRepl (b64char (b1 % 4 * 16 + b2 / 16)), b64UrlRepl (b64char (b2 % 16 * 4))] := by
  simp [base64UrlEncodeList, base64EncodeList, List.filter_cons, b64UrlRepl_eq,
    (b64UrlRepl_b64char_safe _).2]

/-- Encoding of a full three-byte chunk followed by the rest. -/
theorem b64url_chunk (b1 b2 b3 : Nat) (rest : List Nat) :
    base64UrlEncodeList (b1 :: b2 :: b3 :: rest) =
      b64UrlRepl (b64char (b1 / 4)) :: b64UrlRepl (b64char (b1 % 4 * 16 + b2 / 16)) ::
      b64UrlRepl (b64char (b2 % 16 * 4 + b3 / 64)) :: b64UrlRepl (b64char (b3 % 64)) ::
      base64UrlEncodeList rest := by
  simp [base64UrlEncodeList, base64EncodeList, List.filter_cons,
    (b64UrlRepl_b64char_safe _).2]

/-- Length of the URL-safe unpadded encoding of any byte list. -/
theorem b64url_length : ∀ bytes : List Nat,
    (base64UrlEncodeList bytes).length = (bytes.length * 4 + 2) / 3 := by
  intro bytes
  induction bytes using base64EncodeList.induct with
  | case1 => rfl
  | case2 b1 => rw [b64url_one]; simp
  | case3 b1 b2 => rw [b64url_two]; simp
  | case4 b1 b2 b3 rest ih =>
      rw [b64url_chunk]
      simp only [List.length_cons, ih]
      omega

/-- Every character of the URL-safe unpadded encoding lies in the
alphabet `[A-Za-z0-9_-]`. -/
theorem b64url_safe : ∀ bytes : List Nat,
    ∀ c ∈ base64UrlEncodeList bytes, isUrlSafeChar c = true := by
  intro bytes
  induction bytes using base64EncodeList.induct with
  | case1 => intro c hc; cases hc
  | case2 b1 =>
      rw [b64url_one]
      intro c hc
      rcases List.mem_cons.mp hc with h | h
      · rw [h]; exact (b64UrlRepl_b64char_safe _).1
      rcases List.mem_cons.mp h with h2 | h2
      · rw [h2]; exact (b64UrlRepl_b64char_safe _).1
      · cases h2
  | case3 b1 b2 =>
      rw [b64url_two]
      intro c hc
      rcases List.mem_cons.mp hc with h | h
      · rw [h]; exact (b64UrlRepl_b64char_safe _).1
      rcases List.mem_cons.mp h with h2 | h2
      · rw [h2]; exact (b64UrlRepl_b64char_safe _).1
      rcases List.mem_cons.mp h2 with h3 | h3
      · rw [h3]; exact (b64UrlRepl_b64char_safe _).1
      · cases h3
  | case4 b1 b2 b3 rest ih =>
      rw [b64url_chunk]
      intro c hc
      rcases List.mem_cons.mp hc with h | h
      · rw [h]; exact (b64UrlRepl_b64char_safe _).1
      rcases List.mem_cons.mp h with h2 | h2
      · rw [h2]; exact (b64UrlRepl_b64char_safe _).1
      rcases List.mem_cons.mp h2 with h3 | h3
      · rw [h3]; exact (b64UrlRepl_b64char_safe _).1
      rcases List.mem_cons.mp h3 with h4 | h4
      · rw [h4]; exact (b64UrlRepl_b64char_safe _).1
      · exact ih c h4

/-- C4: every generated PKCE verifier (the URL-safe unpadded base64 of the
32 random bytes drawn by `generateCodeVerifier`) is 43 characters over
the alphabet `[A-Za-z0-9_-]`; for every verifier the challenge equals the
URL-safe unpadded base64 of its SHA-256 digest; and the RFC 7636 test
vector `dBjftJeZ4CVP-mB92K27uhbUJU1p1r_wW1gFWFOEjXk` maps to
`E9Melhoa2OwvFrEMTJguCHaoeK1t8URWbuGJSstw-cM`. -/
theorem C4_pkce_verifier_and_challenge :
    (∀ bytes : List Nat, bytes.length = 32 →
      (generateCodeVerifier bytes).length = 43 ∧
      ∀ c ∈ (generateCodeVerifier bytes).data, isUrlSafeChar c = true) ∧
    (∀ v : String, generateCodeChallenge v = base64UrlEncode (sha256 (utf8Encode v))) ∧
    generateCodeChallenge "dBjftJeZ4CVP-mB92K27uhbUJU1p1r_wW1gFWFOEjXk" =
      "E9Melhoa2OwvFrEMTJguCHaoeK1t8URWbuGJSstw-cM" := by
  refine ⟨?_, fun v => rfl, by decide⟩
  intro bytes hlen
  refine ⟨?_, fun c hc => b64url_safe bytes c hc⟩
  show (base64UrlEncodeList bytes).length = 43
  rw [b64url_length, hlen]

/-- Witness for C4 at a concrete 32-byte input. -/
theorem C4_pkce_verifier_and_challenge_witness :
    (generateCodeVerifier (List.replicate 32 171)).length = 43 ∧
    ∀ c ∈ (generateCodeVerifier (List.replicate 32 171)).data, isUrlSafeChar c = true :=
  C4_pkce_verifier_and_challenge.1 (List.replicate 32 171) (by decide)

/-- The token-response validator succeeds exactly on well-formed inputs. -/
theorem validateTokenResponse_isOk (raw : RawTokenInput) :
    exceptIsOk (validateTokenResponse raw) = tokenResponseWellFormed raw := by
  rcases raw with _ | r
  · rfl
  unfold validateTokenResponse tokenResponseWellFormed
  rcases h1 : getStr r.access_token with _ | a
  · simp [h1, exceptIsOk]
  rcases h2 : getStr r.token_type with _ | t
  · by_cases ha : a = "" <;> simp [h1, h2, ha, exceptIsOk]
  rcases h3 : getStr r.sub with _ | sb
  · by_cases ha : a = "" <;> by_cases ht : asciiLower t = "dpop" <;>
      simp [h1, h2, h3, ha, ht, exceptIsOk]
  rcases h4 : getStr r.scope with _ | sc
  · by_cases ha : a = "" <;> by_cases ht : asciiLower t = "dpop" <;>
      by_cases hsb : sb = "" <;> by_cases hst : strStarts sb "did:" <;>
      simp [h1, h2, h3, h4, ha, ht, hsb, hst, exceptIsOk]
  rcases h5 : getNum r.expires_in with _ | n
  · by_cases ha : a = "" <;> by_cases ht : asciiLower t = "dpop" <;>
      by_cases hsb : sb = "" <;> by_cases hst : strStarts sb "did:" <;>
      by_cases hsc : sc = "" <;> by_cases hall : strHasSub sc "atproto" <;>
      simp [h1, h2, h3, h4, h5, ha, ht, hsb, hst, hsc, hall, exceptIsOk]
  by_cases ha : a = "" <;> by_cases ht : asciiLower t = "dpop" <;>
    by_cases hsb : sb = "" <;> by_cases hst : strStarts sb "did:" <;>
    by_cases hsc : sc = "" <;> by_cases hall : strHasSub sc "atproto" <;>
    by_cases hn : n ≤ 0 <;>
    rcases h6 : r.refresh_token with _ | ⟨rt | m | b | _ | xs⟩ <;>
    simp [h1, h2, h3, h4, h5, h6, ha, ht, hsb, hst, hsc, hall, hn, exceptIsOk] <;>
    omega

/-- C5: `validateTokenResponse` returns a validated record exactly when the
raw value is an object with a non-empty string `access_token`, a
`token_type` case-insensitively equal to `DPoP`, a non-empty string `sub`
starting with `did:`, a non-empty string `scope` containing `atproto`, a
positive numeric `expires_in`, and a string `refresh_token` when present;
and the non-DID `sub` example `user:abc` is rejected with a
`TokenValidation` message mentioning `did:`. -/
theorem C5_validate_token_response :
    (∀ raw : RawTokenInput,
      exceptIsOk (validateTokenResponse raw) = tokenResponseWellFormed raw) ∧
    validateTokenResponse c5BadSub =
      .error (.metadataErr "invalid sub claim user:abc, must start with did:") ∧
    strHasSub "invalid sub claim user:abc, must start with did:" "did:" = true :=
  ⟨validateTokenResponse_isOk, rfl, by decide⟩

/-- C6: in the source, `generateDPoPProof` places the raw `url` argument in
the `htu` claim and the raw `method` argument in `htm`; on the spec
example the query string and fragment are not stripped, contradicting the
claim, the repository tests and the changelog. -/
theorem C6_dpop_htu_unnormalized :
    (generateDPoPProofPayload "GET" "https://example.com/api?foo=bar&baz=qux#section"
        none none 1000).htu = "https://example.com/api?foo=bar&baz=qux#section" ∧
    (generateDPoPProofPayload "GET" "https://example.com/api?foo=bar&baz=qux#section"
        none none 1000).htu ≠ "https://example.com/api" ∧
    (generateDPoPProofPayload "get" "https://example.com/api" none none 1000).htm = "get" :=
  ⟨rfl, by decide, rfl⟩

/-- After an update, the cache binds the updated origin to the new nonce. -/
theorem setNonce_find (cache : List (String × String)) (o n : String) :
    (setNonce cache o n).find? (fun kv => kv.1 = o) = some (o, n) := by
  induction cache with
  | nil => simp [setNonce, List.find?]
  | cons kv rest ih =>
      rcases kv with ⟨k, v⟩
      by_cases h : k = o <;> simp [setNonce, List.find?, h, ih]

/-- C7: whenever a response carries a `DPoP-Nonce` header the cache entry
for the origin of the request URL is updated unconditionally, every
subsequently generated proof for any URL on that origin carries the
cached nonce in its payload even on the first attempt, and responses
without the header leave the cache unchanged. -/
theorem C7_nonce_cache :
    (∀ (cache : List (String × String)) (url : String) (resp : HttpResponse) (n : String),
      resp.dpopNonce = some n → ∀ url2 : String, originOf url2 = originOf url →
        getCachedNonce (updateNonceCache cache url resp) url2 = some n) ∧
    (∀ (cache : List (String × String)) (url : String) (resp : HttpResponse) (n : String),
      resp.dpopNonce = some n → n ≠ "" →
      ∀ (url2 method : String) (tok : Option String) (nowSec : Nat),
        originOf url2 = originOf url →
        (generateProofWithCachedNonce (updateNonceCache cache url resp)
          method url2 tok nowSec).nonce = some n) ∧
    (∀ (cache : List (String × String)) (url : String) (resp : HttpResponse),
      resp.dpopNonce = none → updateNonceCache cache url resp = cache) := by
  have hget : ∀ (cache : List (String × String)) (url : String) (resp : HttpResponse)
      (n : String), resp.dpopNonce = some n → ∀ url2 : String,
        originOf url2 = originOf url →
        getCachedNonce (updateNonceCache cache url resp) url2 = some n := by
    intro cache url resp n hn url2 ho
    unfold updateNonceCache getCachedNonce
    rw [hn, ho, setNonce_find]; rfl
  refine ⟨hget, ?_, ?_⟩
  · intro cache url resp n hn hne url2 method tok nowSec ho
    unfold generateProofWithCachedNonce generateDPoPProofPayload
    rw [hget cache url resp n hn url2 ho]
    simp [hne]
  · intro cache url resp hn
    unfold updateNonceCache
    rw [hn]

/-- Witness for C7 at the literal values of spec scenario 6. -/
theorem C7_nonce_cache_witness :
    getCachedNonce (updateNonceCache [] "https://cache-test.example.com/oauth/token"
      ⟨200, some "nonce-abc"⟩) "https://cache-test.example.com/other" = some "nonce-abc" ∧
    (generateProofWithCachedNonce
      (updateNonceCache [] "https://cache-test.example.com/oauth/token" ⟨200, some "nonce-abc"⟩)
      "GET" "https://cache-test.example.com/other" none 5).nonce = some "nonce-abc" :=
  ⟨C7_nonce_cache.1 [] _ _ "nonce-abc" rfl _ (by decide),
   C7_nonce_cache.2.1 [] _ _ "nonce-abc" rfl (by decide) _ "GET" none 5 (by decide)⟩

/-- C9: when a refresh failure is recognized as a replay, `performRefresh`
sleeps 200 ms, reloads the stored session record, and returns it instead
of raising the error whenever it is no longer expired (and attempts no
revocation on that path). -/
theorem C9_replay_recovery (e : RefreshFailure) (stored : Option SessionData)
    (nowMs : Nat) (d : SessionData)
    (hre : isTokenReplayedError e = true) (hs : stored = some d)
    (hexp : isExpired d nowMs = false) :
    performRefreshCatch e stored nowMs =
      { result := .ok d, sleptMs := some 200, revocationAttempted := false } := by
  subst hs
  unfold performRefreshCatch
  simp [hre, hexp]

/-- Witness for C9: a replayed invalid_grant error with a fresh stored
session recovers to that session after the 200 ms wait. -/
theorem C9_replay_recovery_witness :
    performRefreshCatch
      (.tokenExchange ⟨"Token exchange failed: Token refresh failed: Refresh token replayed",
        some "invalid_grant", some "Refresh token replayed"⟩)
      (some ⟨"did:plc:w", "w.test", "https://pds.w.test", "at2", "rt2", "jpriv", "jpub",
        10000000000⟩) 0 =
      { result := .ok ⟨"did:plc:w", "w.test", "https://pds.w.test", "at2", "rt2", "jpriv",
          "jpub", 10000000000⟩, sleptMs := some 200, revocationAttempted := false } :=
  C9_replay_recovery _ _ 0 _ (by decide) rfl (by decide)

/-- C10: `updateTokens` always overwrites `accessToken` and
`tokenExpiresAt`, overwrites `refreshToken` only when the supplied value
is a non-empty string (an absent or empty value keeps the previous one),
and never touches `did`, `handle`, `pdsUrl` or the two DPoP JWKs; and
`callback` builds sessions whose `refreshToken` is the empty string when
the validated response has no `refresh_token`. -/
theorem C10_update_tokens_frame :
    (∀ (s : SessionData) (t : RefreshedTokens) (nowMs : Nat),
      (updateTokens s t nowMs).accessToken = t.accessToken ∧
      (updateTokens s t nowMs).tokenExpiresAt = nowMs + t.expiresIn * 1000 ∧
      (∀ r, t.refreshToken = some r → r ≠ "" → (updateTokens s t nowMs).refreshToken = r) ∧
      (t.refreshToken = none → (updateTokens s t nowMs).refreshToken = s.refreshToken) ∧
      (t.refreshToken = some "" → (updateTokens s t nowMs).refreshToken = s.refreshToken) ∧
      (updateTokens s t nowMs).did = s.did ∧
      (updateTokens s t nowMs).handle = s.handle ∧
      (updateTokens s t nowMs).pdsUrl = s.pdsUrl ∧
      (updateTokens s t nowMs).dpopPrivateKeyJWK = s.dpopPrivateKeyJWK ∧
      (updateTokens s t nowMs).dpopPublicKeyJWK = s.dpopPublicKeyJWK) ∧
    (∀ (did handle pdsUrl : String) (tok : ValidatedTokenResponse)
      (privJWK pubJWK : String) (nowMs : Nat), tok.refresh_token = none →
      (callbackSessionData did handle pdsUrl tok privJWK pubJWK nowMs).refreshToken = "") := by
  constructor
  · intro s t nowMs
    refine ⟨rfl, rfl, ?_, ?_, ?_, rfl, rfl, rfl, rfl, rfl⟩
    · intro r hr hne
      unfold updateTokens
      rw [hr]
      simp [hne]
    · intro hr
      unfold updateTokens
      rw [hr]
    · intro hr
      unfold updateTokens
      rw [hr]
      simp
  · intro did handle pdsUrl tok privJWK pubJWK nowMs hr
    unfold callbackSessionData
    rw [hr]
    rfl

/-- Witness for C10 at concrete sessions and token payloads. -/
theorem C10_update_tokens_frame_witness :
    (updateTokens ⟨"did:plc:a", "a.test", "https://pds.a", "old-at", "old-rt", "kp", "kq", 7⟩
        ⟨"new-at", none, 3600⟩ 1000).refreshToken = "old-rt" ∧
    (updateTokens ⟨"did:plc:a", "a.test", "https://pds.a", "old-at", "old-rt", "kp", "kq", 7⟩
        ⟨"new-at", some "", 3600⟩ 1000).refreshToken = "old-rt" ∧
    (updateTokens ⟨"did:plc:a", "a.test", "https://pds.a", "old-at", "old-rt", "kp", "kq", 7⟩
        ⟨"new-at", some "fresh-rt", 3600⟩ 1000).refreshToken = "fresh-rt" ∧
    (callbackSessionData "did:plc:a" "a.test" "https://pds.a"
        ⟨"at", "DPoP", "atproto", "did:plc:a", 3600, none⟩ "kp" "kq" 0).refreshToken = "" :=
  ⟨((C10_update_tokens_frame.1 _ ⟨"new-at", none, 3600⟩ 1000).2.2.2.1) rfl,
   ((C10_update_tokens_frame.1 _ ⟨"new-at", some "", 3600⟩ 1000).2.2.2.2.1) rfl,
   ((C10_update_tokens_frame.1 _ ⟨"new-at", some "fresh-rt", 3600⟩ 1000).2.2.1)
      "fresh-rt" rfl (by decide),
   (C10_update_tokens_frame.2 "did:plc:a" "a.test" "https://pds.a" _ "kp" "kq" 0) rfl⟩

/-- C1: after a successful token exchange, the callback re-discovers the
auth-server issuer from the PDS of the token DID and compares it to the
issuer stored at authorize time: on mismatch it raises IssuerMismatch
carrying the resolved handle and DID, and a discovery (or DID-resolution)
failure that is not a mismatch never blocks — the session is still
returned. -/
theorem C1_issuer_verification (env : CallbackEnv) (pkce : PkceData)
    (tok : ValidatedTokenResponse) (privJWK pubJWK : String) (nowMs : Nat)
    (did handle pdsUrl : String)
    (hres : callbackResolveIdentity env pkce tok.sub = some (did, handle, pdsUrl)) :
    (∀ eps : DiscoveredEndpoints, pdsUrl ≠ "" → env.discover pdsUrl = some eps →
      eps.issuer ≠ pkce.issuer →
      callbackVerifyAndCreate env pkce tok privJWK pubJWK nowMs =
        .error (.issuerMismatch eps.issuer pkce.issuer (some handle) (some did))) ∧
    (pdsUrl ≠ "" → env.discover pdsUrl = none →
      callbackVerifyAndCreate env pkce tok privJWK pubJWK nowMs =
        .ok (callbackSessionData did handle pdsUrl tok privJWK pubJWK nowMs)) ∧
    (pdsUrl = "" → env.resolveDid tok.sub = none →
      callbackVerifyAndCreate env pkce tok privJWK pubJWK nowMs =
        .ok (callbackSessionData did handle pdsUrl tok privJWK pubJWK nowMs)) := by
  refine ⟨?_, ?_, ?_⟩
  · intro eps hne hdisc hmis
    unfold callbackVerifyAndCreate
    rw [hres]
    unfold verifyIssuer
    simp [hne, hdisc, hmis]
  · intro hne hdisc
    unfold callbackVerifyAndCreate
    rw [hres]
    unfold verifyIssuer
    simp [hne, hdisc]
  · intro hpe hras
    unfold callbackVerifyAndCreate
    rw [hres]
    unfold verifyIssuer
    simp [hpe, hras]

/-- Witness for C1: a PDS whose discovered issuer differs from the stored
one makes the callback fail with IssuerMismatch carrying the identity,
while a PDS whose discovery fails outright still yields the session. -/
theorem C1_issuer_verification_witness :
    callbackVerifyAndCreate
      ⟨fun _ => none,
       fun p => if p = "https://pds.example.com" then
         some ⟨"https://bad.example.com/oauth/authorize",
           "https://bad.example.com/oauth/token", none, "https://bad.example.com"⟩
         else none⟩
      ⟨"ver", "https://auth.example.com", "https://auth.example.com", "alice.test",
        "did:plc:abc", "https://pds.example.com"⟩
      ⟨"at", "DPoP", "atproto", "did:plc:abc", 3600, some "rt"⟩ "kp" "kq" 0 =
      .error (.issuerMismatch "https://bad.example.com" "https://auth.example.com"
        (some "alice.test") (some "did:plc:abc")) ∧
    callbackVerifyAndCreate
      ⟨fun _ => none, fun _ => none⟩
      ⟨"ver", "https://auth.example.com", "https://auth.example.com", "alice.test",
        "did:plc:abc", "https://pds.example.com"⟩
      ⟨"at", "DPoP", "atproto", "did:plc:abc", 3600, some "rt"⟩ "kp" "kq" 0 =
      .ok (callbackSessionData "did:plc:abc" "alice.test" "https://pds.example.com"
        ⟨"at", "DPoP", "atproto", "did:plc:abc", 3600, some "rt"⟩ "kp" "kq" 0) :=
  ⟨(C1_issuer_verification
      ⟨fun _ => none,
       fun p => if p = "https://pds.example.com" then
         some ⟨"https://bad.example.com/oauth/authorize",
           "https://bad.example.com/oauth/token", none, "https://bad.example.com"⟩
         else none⟩
      ⟨"ver", "https://auth.example.com", "https://auth.example.com", "alice.test",
        "did:plc:abc", "https://pds.example.com"⟩
      ⟨"at", "DPoP", "atproto", "did:plc:abc", 3600, some "rt"⟩
      "kp" "kq" 0 "did:plc:abc" "alice.test" "https://pds.example.com" rfl).1
      ⟨"https://bad.example.com/oauth/authorize", "https://bad.example.com/oauth/token",
        none, "https://bad.example.com"⟩ (by decide) rfl (by decide),
   (C1_issuer_verification
      ⟨fun _ => none, fun _ => none⟩
      ⟨"ver", "https://auth.example.com", "https://auth.example.com", "alice.test",
        "did:plc:abc", "https://pds.example.com"⟩
      ⟨"at", "DPoP", "atproto", "did:plc:abc", 3600, some "rt"⟩
      "kp" "kq" 0 "did:plc:abc" "alice.test" "https://pds.example.com" rfl).2.1
      (by decide) rfl⟩

/-- C2: every successful auth-server discovery validated the fetched
metadata with `validateAuthServerMetadata` against the server URL, and
the returned record carries the endpoints and the validated issuer. -/
theorem C2_discovery_validates (authServerUrl : String) (fetched : Option RawMetaInput)
    (eps : DiscoveredEndpoints)
    (h : discoverOAuthEndpointsFromAuthServer authServerUrl fetched = .ok eps) :
    ∃ raw v, fetched = some raw ∧
      validateAuthServerMetadata raw authServerUrl = .ok v ∧
      eps.issuer = v.issuer ∧
      eps.authorizationEndpoint = v.authorization_endpoint ∧
      eps.tokenEndpoint = v.token_endpoint ∧
      eps.revocationEndpoint = v.revocation_endpoint := by
  rcases fetched with _ | raw
  · exact absurd h (by simp [discoverOAuthEndpointsFromAuthServer])
  simp only [discoverOAuthEndpointsFromAuthServer] at h
  rcases hv : validateAuthServerMetadata raw authServerUrl with e | v <;> rw [hv] at h
  · cases h
  · refine ⟨raw, v, rfl, hv, ?_⟩
    cases h
    exact ⟨rfl, rfl, rfl, rfl⟩

/-- Witness for C2 at the valid `https://bsky.social` metadata document. -/
theorem C2_discovery_validates_witness :
    ∃ raw v, some c2ValidMeta = some raw ∧
      validateAuthServerMetadata raw "https://bsky.social" = .ok v ∧
      (DiscoveredEndpoints.mk "https://bsky.social/oauth/authorize"
        "https://bsky.social/oauth/token" (some "https://bsky.social/oauth/revoke")
        "https://bsky.social").issuer = v.issuer ∧
      (DiscoveredEndpoints.mk "https://bsky.social/oauth/authorize"
        "https://bsky.social/oauth/token" (some "https://bsky.social/oauth/revoke")
        "https://bsky.social").authorizationEndpoint = v.authorization_endpoint ∧
      (DiscoveredEndpoints.mk "https://bsky.social/oauth/authorize"
        "https://bsky.social/oauth/token" (some "https://bsky.social/oauth/revoke")
        "https://bsky.social").tokenEndpoint = v.token_endpoint ∧
      (DiscoveredEndpoints.mk "https://bsky.social/oauth/authorize"
        "https://bsky.social/oauth/token" (some "https://bsky.social/oauth/revoke")
        "https://bsky.social").revocationEndpoint = v.revocation_endpoint :=
  C2_discovery_validates "https://bsky.social" (some c2ValidMeta) _ rfl

/-- While an operation holds the lock, every further `restore` call joins
the same in-flight promise and starts nothing new. -/
theorem restore_calls_locked (k : Nat) (s : RestoreLockState) (p : Nat)
    (h : s.lock = some p) :
    (List.replicate k RestoreEvent.call).foldl restoreStep s =
      { s with assigned := s.assigned ++ List.replicate k p } := by
  induction k generalizing s with
  | zero => simp
  | succ k ih =>
      rw [List.replicate_succ, List.foldl_cons]
      have h1 : restoreStep s .call = { s with assigned := s.assigned ++ [p] } := by
        unfold restoreStep; rw [h]
      rw [h1, ih { s with assigned := s.assigned ++ [p] } h]
      simp [List.replicate_succ]

/-- C3: for any positive number of concurrent `restore(sessionId)` calls
with the same sessionId (a trace of call events with no completion in
between), exactly one underlying restore is started — hence exactly one
refresh request for an expired session — and every caller is handed the
same promise, so all resolve with that single operation's session or
identical error. -/
theorem C3_concurrent_restore (n : Nat) (hn : 0 < n) :
    (restoreRun (List.replicate n RestoreEvent.call)).startedRestores = 1 ∧
    (restoreRun (List.replicate n RestoreEvent.call)).assigned = List.replicate n 0 ∧
    ∀ outcome : Nat → Except RefreshErrOut SessionData,
      (restoreRun (List.replicate n RestoreEvent.call)).assigned.map outcome =
        List.replicate n (outcome 0) := by
  obtain ⟨m, rfl⟩ : ∃ m, n = m + 1 := ⟨n - 1, by omega⟩
  unfold restoreRun
  rw [List.replicate_succ, List.foldl_cons]
  have h1 : restoreStep restoreInit .call = ⟨some 0, 1, 1, [0]⟩ := rfl
  rw [h1, restore_calls_locked m ⟨some 0, 1, 1, [0]⟩ 0 rfl]
  refine ⟨rfl, ?_, ?_⟩
  · simp [List.replicate_succ]
  · intro outcome
    simp [List.replicate_succ]

/-- Witness for C3 with three concurrent callers. -/
theorem C3_concurrent_restore_witness :
    (restoreRun (List.replicate 3 RestoreEvent.call)).startedRestores = 1 ∧
    (restoreRun (List.replicate 3 RestoreEvent.call)).assigned = List.replicate 3 0 ∧
    ∀ outcome : Nat → Except RefreshErrOut SessionData,
      (restoreRun (List.replicate 3 RestoreEvent.call)).assigned.map outcome =
        List.replicate 3 (outcome 0) :=
  C3_concurrent_restore 3 (by decide)

/-- `makeDPoPRequest` sends either one request, or exactly two when the
first response is 401 with a non-empty `DPoP-Nonce` header. -/
theorem makeDPoPRequest_cases (serve : Nat → HttpResponse) (method url tok : String)
    (nowSec : Nat) :
    (∃ r, makeDPoPRequest serve method url tok nowSec =
      ⟨[generateDPoPProofPayload method url (some tok) none nowSec], r⟩) ∨
    (∃ n, (serve 0).dpopNonce = some n ∧
      makeDPoPRequest serve method url tok nowSec =
        ⟨[generateDPoPProofPayload method url (some tok) none nowSec,
          generateDPoPProofPayload method url (some tok) (some n) nowSec], serve 1⟩) := by
  unfold makeDPoPRequest
  by_cases h : (serve 0).status = 401
  · rcases hn : (serve 0).dpopNonce with _ | n
    · exact Or.inl ⟨serve 0, by simp [h, hn]⟩
    · by_cases hne : n = ""
      · exact Or.inl ⟨serve 0, by simp [h, hn, hne]⟩
      · exact Or.inr ⟨n, rfl, by simp [h, hn, hne]⟩
  · exact Or.inl ⟨serve 0, by simp [h]⟩

/-- C8: `Session.makeRequest` imports the private key from the stored JWK
and sends a DPoP proof carrying `ath`; a 401 with a `DPoP-Nonce` header
is retried once with the nonce; a response still 401 with a refresh
callback attached triggers the callback (client-side refresh) and one
final retry with the refreshed token; and a non-401 response is never
retried. -/
theorem C8_session_request_retries (serve : Nat → HttpResponse) (s : SessionData)
    (rt : Option String) (method url : String) (nowSec : Nat) :
    (sessionMakeRequest serve s rt method url nowSec).importedKeyJWK = s.dpopPrivateKeyJWK ∧
    (sessionMakeRequest serve s rt method url nowSec).proofs.head? =
      some (generateDPoPProofPayload method url (some s.accessToken) none nowSec) ∧
    (s.accessToken ≠ "" →
      (generateDPoPProofPayload method url (some s.accessToken) none nowSec).ath =
        some (athOf s.accessToken)) ∧
    ((serve 0).status ≠ 401 →
      sessionMakeRequest serve s rt method url nowSec =
        ⟨[generateDPoPProofPayload method url (some s.accessToken) none nowSec],
          s.dpopPrivateKeyJWK, false, serve 0⟩) ∧
    (∀ n, (serve 0).status = 401 → (serve 0).dpopNonce = some n → n ≠ "" →
      (serve 1).status ≠ 401 →
      sessionMakeRequest serve s rt method url nowSec =
        ⟨[generateDPoPProofPayload method url (some s.accessToken) none nowSec,
          generateDPoPProofPayload method url (some s.accessToken) (some n) nowSec],
          s.dpopPrivateKeyJWK, false, serve 1⟩) ∧
    (∀ n t, (serve 0).status = 401 → (serve 0).dpopNonce = some n → n ≠ "" →
      (serve 1).status = 401 → rt = some t →
      sessionMakeRequest serve s rt method url nowSec =
        ⟨[generateDPoPProofPayload method url (some s.accessToken) none nowSec,
          generateDPoPProofPayload method url (some s.accessToken) (some n) nowSec,
          generateDPoPProofPayload method url (some t) none nowSec],
          s.dpopPrivateKeyJWK, true, serve 2⟩) := by
  refine ⟨?_, ?_, ?_, ?_, ?_, ?_⟩
  · rcases makeDPoPRequest_cases serve method url s.accessToken nowSec with
        ⟨r, he⟩ | ⟨n, hn, he⟩ <;>
      · unfold sessionMakeRequest
        rw [he]
        dsimp only
        split <;> (try split) <;> rfl
  · rcases makeDPoPRequest_cases serve method url s.accessToken nowSec with
        ⟨r, he⟩ | ⟨n, hn, he⟩ <;>
      · unfold sessionMakeRequest
        rw [he]
        dsimp only
        split <;> (try split) <;> simp
  · intro hne
    unfold generateDPoPProofPayload
    simp [hne]
  · intro hs
    unfold sessionMakeRequest makeDPoPRequest
    simp [hs]
  · intro n h0 hn hne h1
    unfold sessionMakeRequest makeDPoPRequest
    simp [h0, hn, hne, h1]
  · intro n t h0 hn hne h1 hrt
    unfold sessionMakeRequest makeDPoPRequest
    simp [h0, hn, hne, h1, hrt]

/-- Witness for C8: a 401 with a nonce, then a 401 after the nonce retry
with a refresh callback attached, yields three requests — the last with
the refreshed token — and a 200 result. -/
theorem C8_session_request_retries_witness :
    sessionMakeRequest
      (fun i => if i = 0 then ⟨401, some "srv-nonce"⟩
        else if i = 1 then ⟨401, none⟩ else ⟨200, none⟩)
      ⟨"did:plc:c8", "c8.test", "https://pds.c8", "tok", "rt", "kp", "kq", 0⟩
      (some "newtok") "GET" "https://pds.c8/xrpc/com.atproto.repo.listRecords" 50 =
      ⟨[generateDPoPProofPayload "GET" "https://pds.c8/xrpc/com.atproto.repo.listRecords"
          (some "tok") none 50,
        generateDPoPProofPayload "GET" "https://pds.c8/xrpc/com.atproto.repo.listRecords"
          (some "tok") (some "srv-nonce") 50,
        generateDPoPProofPayload "GET" "https://pds.c8/xrpc/com.atproto.repo.listRecords"
          (some "newtok") none 50], "kp", true, ⟨200, none⟩⟩ :=
  (C8_session_request_retries
      (fun i => if i = 0 then ⟨401, some "srv-nonce"⟩
        else if i = 1 then ⟨401, none⟩ else ⟨200, none⟩)
      ⟨"did:plc:c8", "c8.test", "https://pds.c8", "tok", "rt", "kp", "kq", 0⟩
      (some "newtok") "GET" "https://pds.c8/xrpc/com.atproto.repo.listRecords"
      50).2.2.2.2.2 "srv-nonce" "newtok" rfl rfl (by decide) rfl rfl

end OAuthClientDeno
